import Mathlib

/-!
Verification of the translation-orchestration core of the `dict` repository
(`src-tauri/src/services/`): the aggregate dispatcher `translate`, the
streaming dispatcher `translate_stream`, and the OpenAI-style and Claude
provider adapters, shallowly embedded as pure Lean functions.  Network
interaction (HTTP responses, the SSE line stream, `serde_json::from_str`,
and the `OPENAI_API_KEY` environment fallback) is passed in as explicit
data, so every function below is a pure function of the request plus the
observed external world, exactly mirroring the branch structure of the
Rust source.
-/

namespace Dict

/-- Shallow model of `serde_json::Value` restricted to the shapes the
orchestration code inspects: strings, arrays, objects (association lists,
first binding wins on lookup) and everything else collapsed to `null`. -/
inductive Json where
  | null : Json
  | str (s : String) : Json
  | arr (xs : List Json) : Json
  | obj (fields : List (String × Json)) : Json
deriving Repr

/-- Model of `Value::get(key)` — `None` unless the value is an object with the key. -/
def Json.get (j : Json) (key : String) : Option Json :=
  match j with
  | .obj fields => fields.lookup key
  | _ => none

/-- Model of `Value::as_str()`. -/
def Json.asStr : Json → Option String
  | .str s => some s
  | _ => none

/-- Model of `value[key]` indexing (`serde_json::Value::index`): returns `Null` when
the value is not an object or the key is missing. -/
def Json.idxS (j : Json) (key : String) : Json :=
  match j.get key with
  | some v => v
  | none => .null

/-- Model of `value[i]` indexing on arrays: `Null` when out of bounds or not an array. -/
def Json.idxN (j : Json) (i : Nat) : Json :=
  match j with
  | .arr xs => (xs.get? i).getD .null
  | _ => .null

/-- Model of `Map::entry(key).or_insert(v)` on an object: leave the object unchanged
when the key is present, otherwise add the binding.  On a non-object value
(`as_object_mut()` returns `None`) nothing happens. -/
def Json.orInsert (j : Json) (key : String) (v : Json) : Json :=
  match j with
  | .obj fields =>
      if (fields.lookup key).isSome then .obj fields
      else .obj (fields ++ [(key, v)])
  | _ => j

/-- Drop leading whitespace characters. -/
def trimLeftL : List Char → List Char
  | [] => []
  | c :: cs => if c.isWhitespace then trimLeftL cs else c :: cs

/-- Model of `str::trim`: drop whitespace at both ends (executable model of the
string-level primitive). -/
def trimStr (s : String) : String :=
  ⟨(trimLeftL (trimLeftL s.data).reverse).reverse⟩

/-- Model of `str::to_lowercase` (executable model; ASCII case mapping). -/
def toLowercase (s : String) : String :=
  ⟨s.data.map Char.toLower⟩

/-- Model of `line.starts_with("data:")` (executable model). -/
def startsWithData (s : String) : Bool :=
  match s.data with
  | 'd' :: 'a' :: 't' :: 'a' :: ':' :: _ => true
  | _ => false

/-- Model of `src-tauri/src/models.rs`: `TranslationRequest`.  `config` is the
caller's map from lower-cased provider name to a JSON configuration bag. -/
structure TranslationRequest where
  text : String
  source_lang : String
  target_lang : String
  services : List String
  config : Option (List (String × Json))
deriving Repr

/-- Model of `src-tauri/src/models.rs`: `TranslationResult`. -/
structure TranslationResult where
  name : String
  text : String
  error : Option String
deriving Repr, DecidableEq

/-- Model of `src-tauri/src/models.rs`: `TranslationResponse`. -/
structure TranslationResponse where
  results : List TranslationResult
deriving Repr, DecidableEq

/-- Model of `services/mod.rs` `check_api_key`: the config value has a string field
`apiKey` that is non-empty. -/
def check_api_key (service_config : Option Json) : Bool :=
  match (service_config.bind (·.get "apiKey")).bind Json.asStr with
  | some key => !key.isEmpty
  | none => false

/-- Model of `services/mod.rs` `make_error_result`. -/
def make_error_result (name : String) (error : String) : TranslationResult :=
  { name := name, text := "", error := some error }

/-- Observed outcome of one non-streaming HTTP round trip: the request
failed to send, the status was non-2xx (with the response body text), the
2xx body failed to parse as JSON, or a parsed 2xx JSON body. -/
inductive HttpOutcome where
  | sendErr (e : String)
  | respFail (errorText : String)
  | respBadJson (e : String)
  | respOk (body : Json)
deriving Repr

/-- Model of `services/openai.rs` API-key resolution: the config's `apiKey` string,
else the `OPENAI_API_KEY` environment variable, else a line of a local
`.env` file — the latter two collapsed into the single external input
`envKey`. -/
def openai_api_key (config : Option Json) (envKey : Option String) : Option String :=
  ((config.bind (·.get "apiKey")).bind Json.asStr).orElse (fun _ => envKey)

/-- Model of `services/openai.rs` `translate`, as a function of the configuration,
the environment key fallback, and the observed HTTP outcome.  The first
component records whether the network was reached (the POST was issued). -/
def openai_translate (config : Option Json) (envKey : Option String) (http : HttpOutcome) :
    Bool × Except String TranslationResult :=
  match openai_api_key config envKey with
  | none => (false, .error "API key not found in config or environment")
  | some _ =>
    (true,
      match http with
      | .sendErr e => .error ("OpenAI API request failed: " ++ e)
      | .respFail t => .error ("OpenAI API error: " ++ t)
      | .respBadJson e => .error ("Failed to parse OpenAI response: " ++ e)
      | .respOk body =>
          match ((((body.idxS "choices").idxN 0).idxS "message").idxS "content").asStr with
          | some s => .ok { name := "OpenAI", text := trimStr s, error := none }
          | none => .error "No translation in response")

/-- Model of `services/claude.rs` API-key resolution: the config's `apiKey` string
(presence only — emptiness is not checked here). -/
def claude_api_key (config : Option Json) : Option String :=
  (config.bind (·.get "apiKey")).bind Json.asStr

/-- Model of `services/claude.rs` `translate`.  Error values are the `Display`
renderings of the `AppError` variants the source constructs; a body that
fails to decode as JSON surfaces the `reqwest` decode error through
`From<reqwest::Error>` as `AppError::Network`, displayed
`Network error: ...`. -/
def claude_translate (config : Option Json) (http : HttpOutcome) :
    Bool × Except String TranslationResult :=
  match claude_api_key config with
  | none => (false, .error "Configuration error: Claude API key not configured")
  | some _ =>
    (true,
      match http with
      | .sendErr e => .error e
      | .respFail t => .error ("API error: Claude - " ++ t)
      | .respBadJson e => .error ("Network error: " ++ e)
      | .respOk body =>
          match (((body.idxS "content").idxN 0).idxS "text").asStr with
          | some s => .ok { name := "Claude", text := trimStr s, error := none }
          | none => .error "Translation error: No translation in Claude response")

/-- Model of `str::trim_start_matches("data:")`: strip every leading repetition of
the prefix `data:`. -/
def dropDataPrefix : List Char → List Char
  | 'd' :: 'a' :: 't' :: 'a' :: ':' :: rest => dropDataPrefix rest
  | l => l

/-- Model of `line.trim_start_matches("data:")` on strings. -/
def trimStartMatchesData (s : String) : String :=
  ⟨dropDataPrefix s.data⟩

/-- Model of `json["choices"][0]["delta"]["content"].as_str().or_else(...message...).unwrap_or("")`
from the OpenAI streaming loop. -/
def openai_delta (j : Json) : String :=
  (((((j.idxS "choices").idxN 0).idxS "delta").idxS "content").asStr.orElse
    (fun _ => ((((j.idxS "choices").idxN 0).idxS "message").idxS "content").asStr)).getD ""

/-- Observed outcome of one streaming HTTP round trip: send failure,
non-2xx status, or a 2xx stream presented as the list of complete lines
the chunk/buffer loop extracts, with `tailErr` an optional transport error
cutting the stream off after those lines. -/
inductive StreamHttp where
  | sendErr (e : String)
  | respFail (errorText : String)
  | respOk (lines : List String) (tailErr : Option String)
deriving Repr

/-- The per-line loop of `services/openai.rs` `translate_stream`
(lines 166–196).  `J` is the `serde_json::from_str` oracle, `full` the
`full_text` accumulator, `tr` the trace of fragments delivered to
`on_delta` so far (in delivery order).  Returns the final trace and the
call's result.  A parse failure aborts the whole call (the `?` on
`serde_json::from_str`). -/
def openai_consume (J : String → Except String Json) (tailErr : Option String) :
    List String → String → List String → List String × Except String String
  | [], full, tr =>
      (tr, match tailErr with
           | some e => .error ("Stream error: " ++ e)
           | none => .ok full)
  | line :: rest, full, tr =>
      let l := trimStr line
      if l.isEmpty || !(startsWithData l) then
        openai_consume J tailErr rest full tr
      else
        let data := trimStr (trimStartMatchesData l)
        if data == "[DONE]" then (tr, .ok full)
        else
          match J data with
          | .error e => (tr, .error ("Failed to parse stream JSON: " ++ e))
          | .ok json =>
              let delta := openai_delta json
              if delta.isEmpty then openai_consume J tailErr rest full tr
              else openai_consume J tailErr rest (full ++ delta) (tr ++ [delta])

/-- The per-line loop of `services/claude.rs` `translate_stream`
(lines 135–158).  A line whose payload fails to parse is skipped
(`if let Ok(json) = ...`), and a present `delta.text` field is forwarded
to `on_delta` with no emptiness check. -/
def claude_consume (J : String → Except String Json) (tailErr : Option String) :
    List String → String → List String → List String × Except String String
  | [], full, tr =>
      (tr, match tailErr with
           | some e => .error ("Network error: Stream error: " ++ e)
           | none => .ok full)
  | line :: rest, full, tr =>
      let l := trimStr line
      if l.isEmpty || !(startsWithData l) then
        claude_consume J tailErr rest full tr
      else
        let data := trimStr (trimStartMatchesData l)
        if data == "[DONE]" then (tr, .ok full)
        else
          match J data with
          | .error _ => claude_consume J tailErr rest full tr
          | .ok json =>
              match ((json.get "delta").bind (·.get "text")).bind Json.asStr with
              | some delta => claude_consume J tailErr rest (full ++ delta) (tr ++ [delta])
              | none => claude_consume J tailErr rest full tr

/-- Model of `services/openai.rs` `translate_stream`: key resolution, send, status
check, then the line loop.  Returns (network reached, `on_delta` trace,
result). -/
def openai_translate_stream (config : Option Json) (envKey : Option String)
    (J : String → Except String Json) (http : StreamHttp) :
    Bool × List String × Except String String :=
  match openai_api_key config envKey with
  | none => (false, [], .error "API key not found in config or environment")
  | some _ =>
      match http with
      | .sendErr e => (true, [], .error ("OpenAI API request failed: " ++ e))
      | .respFail t => (true, [], .error ("OpenAI API error: " ++ t))
      | .respOk lines tailErr =>
          let r := openai_consume J tailErr lines "" []
          (true, r.1, r.2)

/-- Model of `services/claude.rs` `translate_stream`: key resolution, send, status
check, then the line loop. -/
def claude_translate_stream (config : Option Json)
    (J : String → Except String Json) (http : StreamHttp) :
    Bool × List String × Except String String :=
  match claude_api_key config with
  | none => (false, [], .error "Configuration error: Claude API key not configured")
  | some _ =>
      match http with
      | .sendErr e => (true, [], .error e)
      | .respFail t => (true, [], .error ("API error: Claude - " ++ t))
      | .respOk lines tailErr =>
          let r := claude_consume J tailErr lines "" []
          (true, r.1, r.2)

/-- Registry default endpoint for Zhipu (`services/mod.rs` line 123). -/
def zhipuApiUrl : String := "https://open.bigmodel.cn/api/paas/v4/chat/completions"

/-- Registry default model for Zhipu (line 125). -/
def zhipuModel : String := "glm-4-flash"

/-- Registry default endpoint for Groq (line 144). -/
def groqApiUrl : String := "https://api.groq.com/openai/v1/chat/completions"

/-- Registry default model for Groq (line 146). -/
def groqModel : String := "llama3-8b-8192"

/-- Registry default endpoint for Gemini (line 165). -/
def geminiApiUrl : String := "https://generativelanguage.googleapis.com/v1beta/openai/chat/completions"

/-- Registry default model for Gemini (line 167). -/
def geminiModel : String := "gemini-1.5-flash"

/-- The default-merging step shared by the Zhipu/Groq/Gemini branches:
`service_config.cloned().unwrap_or(json!({}))`, then
`entry("apiUrl").or_insert(default)` and `entry("model").or_insert(default)`. -/
def applyDefaults (apiUrl model : String) (cfg : Option Json) : Json :=
  let config_obj := cfg.getD (.obj [])
  (config_obj.orInsert "apiUrl" (.str apiUrl)).orInsert "model" (.str model)

/-- The inline Ernie credential test (`services/mod.rs` lines 87–96):
key present as a non-empty string. -/
def key_nonempty (cfg : Option Json) (key : String) : Bool :=
  match (cfg.bind (·.get key)).bind Json.asStr with
  | some k => !k.isEmpty
  | none => false

/-- The external world one spawned provider task observes: the
`OPENAI_API_KEY` environment fallback, the HTTP outcome of each adapter's
round trip, the `serde_json::from_str` oracle for stream lines, and — for
the adapters whose internals no claim depends on (DeepL, Google, Alibaba,
GoogleFree, Ernie) — the adapter call's result itself. -/
structure AdapterEnv where
  envKey : Option String
  openaiHttp : HttpOutcome
  claudeHttp : HttpOutcome
  ernieRes : Except String TranslationResult
  deeplRes : Except String TranslationResult
  googleRes : Except String TranslationResult
  alibabaRes : Except String TranslationResult
  googleFreeRes : Except String TranslationResult
  parse : String → Except String Json
  openaiStream : StreamHttp
  claudeStream : StreamHttp
  ernieStream : List String × Except String String

/-- One spawned task body of `services/mod.rs::translate` (lines 46–238):
the match on the lower-cased service name.  Returns the task's
`TranslationResult` together with whether a network request was issued
for this provider. -/
def translate_task (service : String) (service_config : Option Json) (env : AdapterEnv) :
    TranslationResult × Bool :=
  match toLowercase service with
  | "openai" =>
      if !check_api_key service_config then
        (make_error_result "OpenAI" "No API key configured", false)
      else
        match openai_translate service_config env.envKey env.openaiHttp with
        | (net, .ok r) => ({ r with error := none }, net)
        | (net, .error e) => (make_error_result "OpenAI" e, net)
  | "claude" =>
      if !check_api_key service_config then
        (make_error_result "Claude" "No API key configured", false)
      else
        match claude_translate service_config env.claudeHttp with
        | (net, .ok r) => ({ r with error := none }, net)
        | (net, .error e) => (make_error_result "Claude" e, net)
  | "ernie" | "wenxin" | "文心一言" =>
      if !(key_nonempty service_config "apiKey") || !(key_nonempty service_config "secretKey") then
        (make_error_result "Ernie" "API key and secret key required", false)
      else
        match env.ernieRes with
        | .ok r => ({ r with error := none }, true)
        | .error e => (make_error_result "Ernie" e, true)
  | "zhipu" =>
      if !check_api_key service_config then
        (make_error_result "Zhipu" "No API key configured", false)
      else
        let config_obj := applyDefaults zhipuApiUrl zhipuModel service_config
        match openai_translate (some config_obj) env.envKey env.openaiHttp with
        | (net, .ok r) => ({ r with name := "Zhipu", error := none }, net)
        | (net, .error e) => (make_error_result "Zhipu" e, net)
  | "groq" =>
      let config_obj := applyDefaults groqApiUrl groqModel service_config
      match openai_translate (some config_obj) env.envKey env.openaiHttp with
      | (net, .ok r) => ({ r with name := "Groq", error := none }, net)
      | (net, .error e) => (make_error_result "Groq" e, net)
  | "gemini" =>
      let config_obj := applyDefaults geminiApiUrl geminiModel service_config
      match openai_translate (some config_obj) env.envKey env.openaiHttp with
      | (net, .ok r) => ({ r with name := "Gemini", error := none }, net)
      | (net, .error e) => (make_error_result "Gemini" e, net)
  | "deepl" =>
      match env.deeplRes with
      | .ok r => ({ r with error := none }, true)
      | .error e => (make_error_result "DeepL" e, true)
  | "google" =>
      match env.googleRes with
      | .ok r => ({ r with error := none }, true)
      | .error e => (make_error_result "Google" e, true)
  | "alibaba" =>
      match env.alibabaRes with
      | .ok r => ({ r with error := none }, true)
      | .error e => (make_error_result "Alibaba" e, true)
  | "googlefree" | "google native" =>
      match env.googleFreeRes with
      | .ok r => ({ r with error := none }, true)
      | .error e => (make_error_result "GoogleFree" e, true)
  | _ => (make_error_result service "Service not supported", false)

/-- Observed join outcome of one spawned task (`handle.await`, line 246):
`ok` when the task ran to completion with a result, `panicked` when the
await returned a `tokio::task::JoinError` (the task panicked or was
cancelled). -/
inductive TaskOutcome where
  | ok (r : TranslationResult)
  | panicked (e : String)
deriving Repr, DecidableEq

/-- The result a join outcome contributes, if any. -/
def TaskOutcome.result? : TaskOutcome → Option TranslationResult
  | .ok r => some r
  | .panicked _ => none

/-- Fan-in of `translate` (lines 245–267): await each handle in spawn
order, push completed tasks' results, log-and-skip `JoinError`s, and fail
only when the collected vector is empty. -/
def translate_collect (outcomes : List TaskOutcome) : Except String TranslationResponse :=
  let final_results := outcomes.filterMap TaskOutcome.result?
  if final_results.isEmpty then
    .error "No translation services returned results"
  else
    .ok { results := final_results }

/-- The fixed default provider set (lines 31–35). -/
def defaultServices : List String :=
  ["OpenAI", "DeepL", "Alibaba", "GoogleFree"]

/-- Provider-set resolution: the request's list when non-empty, else the
default set. -/
def servicesOf (req : TranslationRequest) : List String :=
  if req.services.isEmpty then defaultServices else req.services

/-- Model of `config.as_ref().and_then(|c| c.get(&service_name.to_lowercase()))`. -/
def service_config_of (config : Option (List (String × Json))) (service : String) :
    Option Json :=
  config.bind (·.lookup (toLowercase service))

/-- Model of `services/mod.rs::translate`: one task per requested service in
request order, then the fan-in.  `env i` is the external world task `i`
observes; `fate i = some e` injects a `JoinError` for task `i`. -/
def translate (req : TranslationRequest) (env : Nat → AdapterEnv)
    (fate : Nat → Option String) : Except String TranslationResponse :=
  let svcs := servicesOf req
  let outcomes := svcs.enum.map (fun p =>
    match fate p.1 with
    | some e => TaskOutcome.panicked e
    | none =>
        TaskOutcome.ok (translate_task p.2 (service_config_of req.config p.2) (env p.1)).1)
  translate_collect outcomes

/-- Model of `services/mod.rs` `StreamPayload` (lines 270–279). -/
structure StreamPayload where
  request_id : String
  service : String
  delta : Option String
  text : Option String
  error : Option String
  done : Bool
  all_done : Bool
deriving Repr, DecidableEq

/-- The `emit_error` closure of `translate_stream` (lines 306–316). -/
def errorEvent (rid service e : String) : StreamPayload :=
  { request_id := rid, service := service, delta := none, text := none,
    error := some e, done := true, all_done := false }

/-- A per-fragment delta event (e.g. lines 356–364). -/
def deltaEvent (rid service d : String) : StreamPayload :=
  { request_id := rid, service := service, delta := some d, text := none,
    error := none, done := false, all_done := false }

/-- A successful terminal event (e.g. lines 371–379). -/
def finalEvent (rid service t : String) : StreamPayload :=
  { request_id := rid, service := service, delta := none, text := some t,
    error := none, done := true, all_done := false }

/-- The terminal sentinel emitted after all tasks are joined
(lines 562–573). -/
def sentinelEvent (rid : String) : StreamPayload :=
  { request_id := rid, service := "", delta := none, text := none,
    error := none, done := true, all_done := true }

/-- The events one streaming-capable branch emits: a `delta` event per
fragment delivered to `on_delta`, then the terminal event — `text` on
success, `error` on failure (lines 350–384 and analogues). -/
def streamEvents (rid service : String) (tr : List String) (res : Except String String) :
    List StreamPayload :=
  tr.map (deltaEvent rid service) ++
    [match res with
     | .ok final_text => finalEvent rid service final_text
     | .error e => errorEvent rid service e]

/-- One spawned task body of `services/mod.rs::translate_stream`
(lines 299–553), as the list of events that task emits, in emission
order. -/
def stream_task (rid : String) (service : String) (service_config : Option Json)
    (env : AdapterEnv) : List StreamPayload :=
  match toLowercase service with
  | "openai" | "zhipu" | "groq" | "gemini" =>
      if !check_api_key service_config then
        [errorEvent rid service "No API key configured"]
      else
        let config_obj :=
          match toLowercase service with
          | "zhipu" => applyDefaults zhipuApiUrl zhipuModel service_config
          | "groq" => applyDefaults groqApiUrl groqModel service_config
          | "gemini" => applyDefaults geminiApiUrl geminiModel service_config
          | _ => service_config.getD (.obj [])
        let r := openai_translate_stream (some config_obj) env.envKey env.parse env.openaiStream
        streamEvents rid service r.2.1 r.2.2
  | "claude" =>
      if !check_api_key service_config then
        [errorEvent rid service "No API key configured"]
      else
        let r := claude_translate_stream service_config env.parse env.claudeStream
        streamEvents rid service r.2.1 r.2.2
  | "ernie" | "wenxin" | "文心一言" =>
      if !(key_nonempty service_config "apiKey") || !(key_nonempty service_config "secretKey") then
        [errorEvent rid service "API key and secret key required"]
      else
        streamEvents rid service env.ernieStream.1 env.ernieStream.2
  | "deepl" =>
      match env.deeplRes with
      | .ok r => [finalEvent rid r.name r.text]
      | .error e => [errorEvent rid service e]
  | "google" =>
      match env.googleRes with
      | .ok r => [finalEvent rid r.name r.text]
      | .error e => [errorEvent rid service e]
  | "alibaba" =>
      match env.alibabaRes with
      | .ok r => [finalEvent rid r.name r.text]
      | .error e => [errorEvent rid service e]
  | "googlefree" | "google native" =>
      match env.googleFreeRes with
      | .ok r => [finalEvent rid r.name r.text]
      | .error e => [errorEvent rid service e]
  | _ => [errorEvent rid service "Service not supported"]

/-- The full event trace of `translate_stream`: some interleaving `evs`
of the per-task traces (tasks run concurrently and are all awaited at
lines 558–560), followed by the sentinel emitted at lines 562–573. -/
def translate_stream_trace (rid : String) (evs : List StreamPayload) : List StreamPayload :=
  evs ++ [sentinelEvent rid]

/-- Predicate stating that `evs` consists only of events some provider task of this request can
emit. -/
def fromTasks (rid : String) (evs : List StreamPayload) : Prop :=
  ∀ e ∈ evs, ∃ service cfg env, e ∈ stream_task rid service cfg env

/-- Concatenation of a list of fragments, in order (the `full_text`
accumulation). -/
def concatAll (l : List String) : String :=
  l.foldr (· ++ ·) ""

/-- Stable insertion of a timed task by completion time. -/
def insertByTime (x : TaskOutcome × Nat) :
    List (TaskOutcome × Nat) → List (TaskOutcome × Nat)
  | [] => [x]
  | y :: ys => if y.2 ≤ x.2 then y :: insertByTime x ys else x :: y :: ys

/-- Stable sort of timed tasks by completion time. -/
def sortByTime : List (TaskOutcome × Nat) → List (TaskOutcome × Nat)
  | [] => []
  | x :: xs => insertByTime x (sortByTime xs)

/-- The spec's notion of "completion order" (stated for comparison with
the code's join order): the task outcomes listed in the order the tasks
finished, i.e. sorted by completion time. -/
def completionOrder (tasks : List (TaskOutcome × Nat)) : List TaskOutcome :=
  (sortByTime tasks).map Prod.fst

/-- The aggregate fan-in applied to tasks carrying completion times: the
code awaits each `JoinHandle` in spawn order (lines 245–259), so the
times play no role in the order results are pushed. -/
def translate_join_timed (tasks : List (TaskOutcome × Nat)) :
    Except String TranslationResponse :=
  translate_collect (tasks.map Prod.fst)

/-- A provider configuration holding only a non-empty API key. -/
def keyCfg : Json := .obj [("apiKey", .str "k")]

/-- A `serde_json::from_str` oracle for probing: fails on every input. -/
def failParse : String → Except String Json :=
  fun _ => .error "parse error"

/-- A closed environment used for concrete probes: no environment key, no
reachable network, every abstract adapter fails. -/
def probeEnv : AdapterEnv :=
  { envKey := none
    openaiHttp := .sendErr "connection refused"
    claudeHttp := .sendErr "connection refused"
    ernieRes := .error "connection refused"
    deeplRes := .error "connection refused"
    googleRes := .error "connection refused"
    alibabaRes := .error "connection refused"
    googleFreeRes := .error "connection refused"
    parse := failParse
    openaiStream := .sendErr "connection refused"
    claudeStream := .sendErr "connection refused"
    ernieStream := ([], .error "connection refused") }

/-- Oracle mapping the payload `ed` to a Claude stream event whose
`delta.text` is the empty string. -/
def emptyDeltaParse : String → Except String Json :=
  fun s =>
    if s = "ed" then .ok (.obj [("delta", .obj [("text", .str "")])])
    else .error "invalid"

/-- Oracle mapping the payloads `b` and `j` to OpenAI stream chunks whose
delta contents are `Bon` and `jour`. -/
def bonjourParse : String → Except String Json :=
  fun s =>
    if s = "b" then
      .ok (.obj [("choices", .arr [.obj [("delta", .obj [("content", .str "Bon")])]])])
    else if s = "j" then
      .ok (.obj [("choices", .arr [.obj [("delta", .obj [("content", .str "jour")])]])])
    else .error "invalid"

/-- Oracle failing on the payload `bad` and succeeding (with no delta
content) otherwise. -/
def badLineParse : String → Except String Json :=
  fun s => if s = "bad" then .error "expected value" else .ok .null

/-- A 2xx OpenAI response body whose `choices[0].message.content` is the
empty string. -/
def emptyContentBody : Json :=
  .obj [("choices", .arr [.obj [("message", .obj [("content", .str "")])]])]

theorem lookup_append (key : String) (l₁ l₂ : List (String × Json)) :
    List.lookup key (l₁ ++ l₂) = (List.lookup key l₁).orElse (fun _ => List.lookup key l₂) := by
  induction l₁ with
  | nil => simp
  | cons p t ih =>
      cases p with
      | mk a b =>
          simp only [List.cons_append, List.lookup_cons]
          split <;> simp [ih]

theorem orInsert_get_ne (j : Json) (k k' : String) (v : Json) (h : k' ≠ k) :
    (j.orInsert k v).get k' = j.get k' := by
  cases j with
  | obj fields =>
      simp only [Json.orInsert]
      split
      · rfl
      · simp only [Json.get]
        rw [lookup_append]
        have hk : (k' == k) = false := by
          simp only [beq_eq_false_iff_ne, ne_eq]
          exact h
        cases hx : List.lookup k' fields <;>
          simp [List.lookup_cons, hk, Option.orElse]
  | null => rfl
  | str s => rfl
  | arr xs => rfl

theorem orInsert_get_self (fields : List (String × Json)) (key : String) (v : Json) :
    ((Json.obj fields).orInsert key v).get key =
      some (((Json.obj fields).get key).getD v) := by
  simp only [Json.orInsert]
  split
  · rename_i hs
    obtain ⟨w, hw⟩ := Option.isSome_iff_exists.mp hs
    simp [Json.get, hw]
  · rename_i hs
    have hn : List.lookup key fields = none := by
      cases hx : List.lookup key fields with
      | none => rfl
      | some w => rw [hx] at hs; simp at hs
    simp only [Json.get]
    rw [lookup_append]
    simp [hn, List.lookup_cons, Option.orElse, beq_self_eq_true]

/-- C8: for the providers with registry defaults (Zhipu, Groq, Gemini), the
default-merging step fills `apiUrl` and `model` from the registry exactly
when they are absent from the caller's provider configuration object,
never overwrites a caller-supplied value, and leaves every other key of
the configuration untouched (an absent configuration behaves as the empty
object, so both defaults are inserted).
-/
theorem c8_defaults_fill_only_absent (u m k : String) (fields : List (String × Json))
    (hu : k ≠ "apiUrl") (hm : k ≠ "model") :
    (∀ cfg : Option Json, (applyDefaults u m cfg).get k = (cfg.getD (.obj [])).get k) ∧
    ((applyDefaults u m (some (.obj fields))).get "apiUrl" =
      some ((List.lookup "apiUrl" fields).getD (.str u))) ∧
    ((applyDefaults u m (some (.obj fields))).get "model" =
      some ((List.lookup "model" fields).getD (.str m))) ∧
    ((applyDefaults u m none).get "apiUrl" = some (.str u)) ∧
    ((applyDefaults u m none).get "model" = some (.str m)) := by
  have hobj : ∀ (fs : List (String × Json)) (key : String) (v : Json),
      ∃ fs', (Json.obj fs).orInsert key v = .obj fs' := by
    intro fs key v
    simp only [Json.orInsert]
    split
    · exact ⟨fs, rfl⟩
    · exact ⟨fs ++ [(key, v)], rfl⟩
  refine ⟨?_, ?_, ?_, ?_, ?_⟩
  · intro cfg
    simp only [applyDefaults]
    rw [orInsert_get_ne _ _ _ _ hm, orInsert_get_ne _ _ _ _ hu]
  · simp only [applyDefaults, Option.getD_some]
    obtain ⟨fs', hfs'⟩ := hobj fields "apiUrl" (.str u)
    rw [orInsert_get_ne _ _ _ _ (by decide : ("apiUrl" : String) ≠ "model"),
      orInsert_get_self]
    simp [Json.get]
  · simp only [applyDefaults, Option.getD_some]
    obtain ⟨fs', hfs'⟩ := hobj fields "apiUrl" (.str u)
    rw [hfs', orInsert_get_self, ← hfs',
      orInsert_get_ne _ _ _ _ (by decide : ("model" : String) ≠ "apiUrl")]
    simp [Json.get]
  · rfl
  · rfl

/-- C8 witness: with caller configuration `{apiUrl: "caller", x: "y"}` for
Groq, the merged configuration keeps the caller's `apiUrl`, fills `model`
from the registry, and leaves `x` unchanged.
-/
theorem c8_defaults_fill_only_absent_witness :
    ("x" : String) ≠ "apiUrl" ∧ ("x" : String) ≠ "model" ∧
    (applyDefaults groqApiUrl groqModel
        (some (.obj [("apiUrl", .str "caller"), ("x", .str "y")]))).get "apiUrl" =
      some (.str "caller") ∧
    (applyDefaults groqApiUrl groqModel
        (some (.obj [("apiUrl", .str "caller"), ("x", .str "y")]))).get "model" =
      some (.str groqModel) ∧
    (applyDefaults groqApiUrl groqModel
        (some (.obj [("apiUrl", .str "caller"), ("x", .str "y")]))).get "x" =
      some (.str "y") := by
  have h := c8_defaults_fill_only_absent groqApiUrl groqModel "x"
    [("apiUrl", .str "caller"), ("x", .str "y")] (by decide) (by decide)
  refine ⟨by decide, by decide, ?_, ?_, ?_⟩
  · rw [h.2.1]; rfl
  · rw [h.2.2.1]; rfl
  · rw [h.1 (some (.obj [("apiUrl", .str "caller"), ("x", .str "y")]))]; rfl

theorem filterMap_result?_map_ok {α : Type} (h : α → TranslationResult) (l : List α) :
    List.filterMap TaskOutcome.result? (l.map fun a => TaskOutcome.ok (h a)) = l.map h := by
  induction l with
  | nil => rfl
  | cons x t ih => simp [TaskOutcome.result?, ih]

theorem translate_collect_def (outcomes : List TaskOutcome) :
    translate_collect outcomes =
      if (outcomes.filterMap TaskOutcome.result?).isEmpty then
        .error "No translation services returned results"
      else .ok ⟨outcomes.filterMap TaskOutcome.result?⟩ := rfl

theorem translate_collect_all_ok {α : Type} (h : α → TranslationResult) (l : List α)
    (hl : l ≠ []) :
    translate_collect (l.map fun a => TaskOutcome.ok (h a)) = .ok ⟨l.map h⟩ := by
  rw [translate_collect_def, filterMap_result?_map_ok]
  have hne : (l.map h).isEmpty = false := by
    cases l with
    | nil => exact absurd rfl hl
    | cons a t => rfl
  simp [hne]

theorem servicesOf_ne_nil (req : TranslationRequest) : servicesOf req ≠ [] := by
  unfold servicesOf
  split
  · decide
  · rename_i hne
    exact fun hcon => hne (List.isEmpty_iff.mpr hcon)

/-- C1 (amended): when every spawned task runs to completion, the aggregate
response contains exactly one `TranslationResult` per requested provider
name, duplicates included, in request order — entry `i` is task `i`'s
result.  A task that panics or is cancelled, however, is dropped from the
response (its `JoinError` is only logged), so in general the response has
one entry per *completed* task, not per requested name.
-/
theorem c1_amended_one_entry_per_completed_task (req : TranslationRequest)
    (env : Nat → AdapterEnv) :
    translate req env (fun _ => none) =
      .ok ⟨(servicesOf req).enum.map
        (fun p => (translate_task p.2 (service_config_of req.config p.2) (env p.1)).1)⟩ ∧
    ((servicesOf req).enum.map
        (fun p => (translate_task p.2 (service_config_of req.config p.2) (env p.1)).1)).length =
      (servicesOf req).length := by
  constructor
  · show translate_collect ((servicesOf req).enum.map fun p =>
        TaskOutcome.ok ((translate_task p.2 (service_config_of req.config p.2) (env p.1)).1)) =
      .ok ⟨(servicesOf req).enum.map
        (fun p => (translate_task p.2 (service_config_of req.config p.2) (env p.1)).1)⟩
    apply translate_collect_all_ok
    intro henum
    apply servicesOf_ne_nil req
    have hlen := congrArg List.length henum
    simp only [List.enum_length, List.length_nil] at hlen
    exact List.length_eq_zero.mp hlen
  · simp [List.enum_length]

/-- C1 counterexample: two provider names are requested, the first task
panics.  The aggregate call succeeds with a single entry — the panicked
provider is silently dropped rather than reported as a named failure
entry, so the response does not contain exactly N = 2 entries.
-/
theorem c1_counterexample_panicked_task_dropped :
    translate ⟨"hi", "auto", "en", ["OpenAI", "BadX"], none⟩ (fun _ => probeEnv)
        (fun i => if i = 0 then some "task 0 panicked" else none) =
      .ok ⟨[⟨"BadX", "", some "Service not supported"⟩]⟩ ∧
    ([(⟨"BadX", "", some "Service not supported"⟩ : TranslationResult)]).length ≠ 2 :=
  ⟨rfl, by decide⟩

/-- C3 (amended): the aggregate call returns a top-level error exactly when
no task contributed any result — which requires every task to have
panicked.  When every requested provider merely fails (e.g. no
credentials), each task still completes with an error-carrying result, so
the call succeeds and returns the all-error collection.
-/
theorem c3_amended_error_iff_no_results (outcomes : List TaskOutcome) :
    (∃ e, translate_collect outcomes = .error e) ↔
      ∀ o ∈ outcomes, o.result? = none := by
  rw [translate_collect_def]
  constructor
  · rintro ⟨e, he⟩
    split at he
    · rename_i hempty
      exact List.filterMap_eq_nil_iff.mp (List.isEmpty_iff.mp hempty)
    · simp at he
  · intro h
    have hnil : outcomes.filterMap TaskOutcome.result? = [] :=
      List.filterMap_eq_nil_iff.mpr h
    rw [hnil]
    exact ⟨"No translation services returned results", rfl⟩

/-- C3 counterexample: both requested providers fail (no credentials for
either), yet the aggregate call returns a successful response whose
entries all carry errors — not a top-level error.
-/
theorem c3_counterexample_all_error_success :
    translate ⟨"hello", "auto", "en", ["OpenAI", "Claude"], none⟩ (fun _ => probeEnv)
        (fun _ => none) =
      .ok ⟨[⟨"OpenAI", "", some "No API key configured"⟩,
            ⟨"Claude", "", some "No API key configured"⟩]⟩ ∧
    (∀ r ∈ [(⟨"OpenAI", "", some "No API key configured"⟩ : TranslationResult),
            ⟨"Claude", "", some "No API key configured"⟩], r.error ≠ none) :=
  ⟨rfl, by decide⟩

/-- C7 (amended): the aggregate fan-in awaits each task handle in spawn
(request) order, so the response lists results in request order; the
tasks' completion times have no influence on the output.  When every task
completes, the response is exactly the request-order result list.
-/
theorem c7_amended_join_in_request_order (outcomes : List TaskOutcome) (times : List Nat)
    (h : outcomes.length ≤ times.length) (rs : List TranslationResult) :
    translate_join_timed (outcomes.zip times) = translate_collect outcomes ∧
    (outcomes = rs.map TaskOutcome.ok → rs ≠ [] →
      translate_collect outcomes = .ok ⟨rs⟩) := by
  constructor
  · unfold translate_join_timed
    rw [List.map_fst_zip _ _ h]
  · rintro rfl hne
    have h2 := translate_collect_all_ok (fun r => r) rs hne
    simpa using h2

/-- C7 amended witness: a single completed task with completion time 3.
-/
theorem c7_amended_join_in_request_order_witness :
    translate_join_timed ([TaskOutcome.ok ⟨"DeepL", "x", none⟩].zip [3]) =
      translate_collect [TaskOutcome.ok ⟨"DeepL", "x", none⟩] ∧
    translate_collect [TaskOutcome.ok ⟨"DeepL", "x", none⟩] =
      .ok ⟨[⟨"DeepL", "x", none⟩]⟩ := by
  have h := c7_amended_join_in_request_order [TaskOutcome.ok ⟨"DeepL", "x", none⟩] [3]
    (by decide) [⟨"DeepL", "x", none⟩]
  exact ⟨h.1, h.2 rfl (by decide)⟩

/-- C7 counterexample: two completed tasks where the second finishes first
(times 5 and 1).  The aggregate result list is in request order, which
differs from completion order.
-/
theorem c7_counterexample_not_completion_order :
    translate_join_timed
        [(TaskOutcome.ok ⟨"DeepL", "x", none⟩, 5), (TaskOutcome.ok ⟨"Google", "y", none⟩, 1)] =
      .ok ⟨[⟨"DeepL", "x", none⟩, ⟨"Google", "y", none⟩]⟩ ∧
    completionOrder
        [(TaskOutcome.ok ⟨"DeepL", "x", none⟩, 5), (TaskOutcome.ok ⟨"Google", "y", none⟩, 1)] =
      [TaskOutcome.ok ⟨"Google", "y", none⟩, TaskOutcome.ok ⟨"DeepL", "x", none⟩] ∧
    ([⟨"DeepL", "x", none⟩, ⟨"Google", "y", none⟩] : List TranslationResult) ≠
      [⟨"Google", "y", none⟩, ⟨"DeepL", "x", none⟩] :=
  ⟨rfl, rfl, by decide⟩

theorem mem_streamEvents {rid s : String} {tr : List String} {res : Except String String}
    {e : StreamPayload} (he : e ∈ streamEvents rid s tr res) :
    (∃ d, e = deltaEvent rid s d) ∨ (∃ t, e = finalEvent rid s t) ∨
      (∃ er, e = errorEvent rid s er) := by
  unfold streamEvents at he
  rcases List.mem_append.mp he with h | h
  · rcases List.mem_map.mp h with ⟨d, _, rfl⟩
    exact .inl ⟨d, rfl⟩
  · cases res with
    | ok t =>
        rw [List.mem_singleton] at h
        exact .inr (.inl ⟨t, h⟩)
    | error er =>
        rw [List.mem_singleton] at h
        exact .inr (.inr ⟨er, h⟩)

theorem stream_task_event_shape (rid service : String) (cfg : Option Json)
    (env : AdapterEnv) (e : StreamPayload) (he : e ∈ stream_task rid service cfg env) :
    (∃ s d, e = deltaEvent rid s d) ∨ (∃ s t, e = finalEvent rid s t) ∨
      (∃ s er, e = errorEvent rid s er) := by
  have hse : ∀ (s : String) (tr : List String) (res : Except String String),
      e ∈ streamEvents rid s tr res →
      (∃ s d, e = deltaEvent rid s d) ∨ (∃ s t, e = finalEvent rid s t) ∨
        (∃ s er, e = errorEvent rid s er) := by
    intro s tr res hmem
    rcases mem_streamEvents hmem with ⟨d, rfl⟩ | ⟨t, rfl⟩ | ⟨er, rfl⟩
    · exact .inl ⟨s, d, rfl⟩
    · exact .inr (.inl ⟨s, t, rfl⟩)
    · exact .inr (.inr ⟨s, er, rfl⟩)
  have herr : ∀ (s er : String), e ∈ [errorEvent rid s er] →
      (∃ s d, e = deltaEvent rid s d) ∨ (∃ s t, e = finalEvent rid s t) ∨
        (∃ s er, e = errorEvent rid s er) := by
    intro s er hmem
    exact .inr (.inr ⟨s, er, List.mem_singleton.mp hmem⟩)
  have hfin : ∀ (s t : String), e ∈ [finalEvent rid s t] →
      (∃ s d, e = deltaEvent rid s d) ∨ (∃ s t, e = finalEvent rid s t) ∨
        (∃ s er, e = errorEvent rid s er) := by
    intro s t hmem
    exact .inr (.inl ⟨s, t, List.mem_singleton.mp hmem⟩)
  unfold stream_task at he
  split at he
  all_goals try exact herr _ _ he
  all_goals split at he
  all_goals
    first
      | exact herr _ _ he
      | exact hfin _ _ he
      | exact hse _ _ _ he

/-- C2: after all provider tasks are awaited, the streaming dispatcher emits
exactly one sentinel event for the request; it is the last event of the
trace (after every other event for the `request_id`), its `service` is the
empty string, `done` and `all_done` are true, and its `delta`, `text` and
`error` fields are all absent.  No provider task ever emits an `all_done`
event, so the sentinel is the unique one.
-/
theorem c2_sentinel_unique_and_last (rid : String) (evs : List StreamPayload)
    (h : fromTasks rid evs) :
    (translate_stream_trace rid evs).countP (·.all_done) = 1 ∧
    (translate_stream_trace rid evs).getLast? = some (sentinelEvent rid) ∧
    (sentinelEvent rid).service = "" ∧ (sentinelEvent rid).done = true ∧
    (sentinelEvent rid).all_done = true ∧ (sentinelEvent rid).delta = none ∧
    (sentinelEvent rid).text = none ∧ (sentinelEvent rid).error = none := by
  have hz : evs.countP (·.all_done) = 0 := by
    rw [List.countP_eq_zero]
    intro a ha
    obtain ⟨s, c, en, hmem⟩ := h a ha
    rcases stream_task_event_shape rid s c en a hmem with
      ⟨s', d, rfl⟩ | ⟨s', t, rfl⟩ | ⟨s', er, rfl⟩ <;>
      simp [deltaEvent, finalEvent, errorEvent]
  refine ⟨?_, ?_, rfl, rfl, rfl, rfl, rfl, rfl⟩
  · unfold translate_stream_trace
    rw [List.countP_append, hz]
    rfl
  · unfold translate_stream_trace
    rw [List.getLast?_append]
    rfl

/-- C2 witness: the interleaving consisting of a single OpenAI task's events.
-/
theorem c2_sentinel_unique_and_last_witness :
    (translate_stream_trace "r" (stream_task "r" "openai" none probeEnv)).countP
        (·.all_done) = 1 ∧
    (translate_stream_trace "r" (stream_task "r" "openai" none probeEnv)).getLast? =
      some (sentinelEvent "r") := by
  have h := c2_sentinel_unique_and_last "r" (stream_task "r" "openai" none probeEnv)
    (fun e he => ⟨"openai", none, probeEnv, he⟩)
  exact ⟨h.1, h.2.1⟩

theorem translate_task_openai_eq (cfg : Option Json) (env : AdapterEnv) :
    translate_task "OpenAI" cfg env =
      if !check_api_key cfg then
        (make_error_result "OpenAI" "No API key configured", false)
      else
        match openai_translate cfg env.envKey env.openaiHttp with
        | (net, .ok r) => ({ r with error := none }, net)
        | (net, .error e) => (make_error_result "OpenAI" e, net) := rfl

theorem translate_task_claude_eq (cfg : Option Json) (env : AdapterEnv) :
    translate_task "Claude" cfg env =
      if !check_api_key cfg then
        (make_error_result "Claude" "No API key configured", false)
      else
        match claude_translate cfg env.claudeHttp with
        | (net, .ok r) => ({ r with error := none }, net)
        | (net, .error e) => (make_error_result "Claude" e, net) := rfl

theorem translate_task_zhipu_eq (cfg : Option Json) (env : AdapterEnv) :
    translate_task "Zhipu" cfg env =
      if !check_api_key cfg then
        (make_error_result "Zhipu" "No API key configured", false)
      else
        match openai_translate (some (applyDefaults zhipuApiUrl zhipuModel cfg))
            env.envKey env.openaiHttp with
        | (net, .ok r) => ({ r with name := "Zhipu", error := none }, net)
        | (net, .error e) => (make_error_result "Zhipu" e, net) := rfl

theorem translate_task_groq_eq (cfg : Option Json) (env : AdapterEnv) :
    translate_task "Groq" cfg env =
      match openai_translate (some (applyDefaults groqApiUrl groqModel cfg))
          env.envKey env.openaiHttp with
      | (net, .ok r) => ({ r with name := "Groq", error := none }, net)
      | (net, .error e) => (make_error_result "Groq" e, net) := rfl

theorem translate_task_gemini_eq (cfg : Option Json) (env : AdapterEnv) :
    translate_task "Gemini" cfg env =
      match openai_translate (some (applyDefaults geminiApiUrl geminiModel cfg))
          env.envKey env.openaiHttp with
      | (net, .ok r) => ({ r with name := "Gemini", error := none }, net)
      | (net, .error e) => (make_error_result "Gemini" e, net) := rfl

theorem translate_task_deepl_eq (cfg : Option Json) (env : AdapterEnv) :
    translate_task "DeepL" cfg env =
      match env.deeplRes with
      | .ok r => ({ r with error := none }, true)
      | .error e => (make_error_result "DeepL" e, true) := rfl

theorem translate_task_google_eq (cfg : Option Json) (env : AdapterEnv) :
    translate_task "Google" cfg env =
      match env.googleRes with
      | .ok r => ({ r with error := none }, true)
      | .error e => (make_error_result "Google" e, true) := rfl

theorem translate_task_alibaba_eq (cfg : Option Json) (env : AdapterEnv) :
    translate_task "Alibaba" cfg env =
      match env.alibabaRes with
      | .ok r => ({ r with error := none }, true)
      | .error e => (make_error_result "Alibaba" e, true) := rfl

theorem translate_task_googlefree_eq (cfg : Option Json) (env : AdapterEnv) :
    translate_task "GoogleFree" cfg env =
      match env.googleFreeRes with
      | .ok r => ({ r with error := none }, true)
      | .error e => (make_error_result "GoogleFree" e, true) := rfl

theorem stream_task_openai_eq (rid : String) (cfg : Option Json) (env : AdapterEnv) :
    stream_task rid "OpenAI" cfg env =
      if !check_api_key cfg then [errorEvent rid "OpenAI" "No API key configured"]
      else
        streamEvents rid "OpenAI"
          (openai_translate_stream (some (cfg.getD (.obj []))) env.envKey env.parse
            env.openaiStream).2.1
          (openai_translate_stream (some (cfg.getD (.obj []))) env.envKey env.parse
            env.openaiStream).2.2 := rfl

theorem stream_task_claude_eq (rid : String) (cfg : Option Json) (env : AdapterEnv) :
    stream_task rid "Claude" cfg env =
      if !check_api_key cfg then [errorEvent rid "Claude" "No API key configured"]
      else
        streamEvents rid "Claude"
          (claude_translate_stream cfg env.parse env.claudeStream).2.1
          (claude_translate_stream cfg env.parse env.claudeStream).2.2 := rfl

theorem stream_task_zhipu_eq (rid : String) (cfg : Option Json) (env : AdapterEnv) :
    stream_task rid "Zhipu" cfg env =
      if !check_api_key cfg then [errorEvent rid "Zhipu" "No API key configured"]
      else
        streamEvents rid "Zhipu"
          (openai_translate_stream (some (applyDefaults zhipuApiUrl zhipuModel cfg))
            env.envKey env.parse env.openaiStream).2.1
          (openai_translate_stream (some (applyDefaults zhipuApiUrl zhipuModel cfg))
            env.envKey env.parse env.openaiStream).2.2 := rfl

theorem stream_task_groq_eq (rid : String) (cfg : Option Json) (env : AdapterEnv) :
    stream_task rid "Groq" cfg env =
      if !check_api_key cfg then [errorEvent rid "Groq" "No API key configured"]
      else
        streamEvents rid "Groq"
          (openai_translate_stream (some (applyDefaults groqApiUrl groqModel cfg))
            env.envKey env.parse env.openaiStream).2.1
          (openai_translate_stream (some (applyDefaults groqApiUrl groqModel cfg))
            env.envKey env.parse env.openaiStream).2.2 := rfl

theorem stream_task_gemini_eq (rid : String) (cfg : Option Json) (env : AdapterEnv) :
    stream_task rid "Gemini" cfg env =
      if !check_api_key cfg then [errorEvent rid "Gemini" "No API key configured"]
      else
        streamEvents rid "Gemini"
          (openai_translate_stream (some (applyDefaults geminiApiUrl geminiModel cfg))
            env.envKey env.parse env.openaiStream).2.1
          (openai_translate_stream (some (applyDefaults geminiApiUrl geminiModel cfg))
            env.envKey env.parse env.openaiStream).2.2 := rfl

theorem stream_task_deepl_eq (rid : String) (cfg : Option Json) (env : AdapterEnv) :
    stream_task rid "DeepL" cfg env =
      match env.deeplRes with
      | .ok r => [finalEvent rid r.name r.text]
      | .error e => [errorEvent rid "DeepL" e] := rfl

theorem stream_task_google_eq (rid : String) (cfg : Option Json) (env : AdapterEnv) :
    stream_task rid "Google" cfg env =
      match env.googleRes with
      | .ok r => [finalEvent rid r.name r.text]
      | .error e => [errorEvent rid "Google" e] := rfl

theorem stream_task_alibaba_eq (rid : String) (cfg : Option Json) (env : AdapterEnv) :
    stream_task rid "Alibaba" cfg env =
      match env.alibabaRes with
      | .ok r => [finalEvent rid r.name r.text]
      | .error e => [errorEvent rid "Alibaba" e] := rfl

theorem stream_task_googlefree_eq (rid : String) (cfg : Option Json) (env : AdapterEnv) :
    stream_task rid "GoogleFree" cfg env =
      match env.googleFreeRes with
      | .ok r => [finalEvent rid r.name r.text]
      | .error e => [errorEvent rid "GoogleFree" e] := rfl

theorem translate_task_ernie_eq (cfg : Option Json) (env : AdapterEnv) :
    translate_task "Ernie" cfg env =
      if !(key_nonempty cfg "apiKey") || !(key_nonempty cfg "secretKey") then
        (make_error_result "Ernie" "API key and secret key required", false)
      else
        match env.ernieRes with
        | .ok r => ({ r with error := none }, true)
        | .error e => (make_error_result "Ernie" e, true) := rfl

theorem openai_translate_no_key (u m : String) (cfg : Option Json) (http : HttpOutcome)
    (hk : (cfg.bind (·.get "apiKey")).bind Json.asStr = none) :
    openai_translate (some (applyDefaults u m cfg)) none http =
      (false, .error "API key not found in config or environment") := by
  have hget : (applyDefaults u m cfg).get "apiKey" = (cfg.getD (.obj [])).get "apiKey" := by
    unfold applyDefaults
    rw [orInsert_get_ne _ _ _ _ (by decide), orInsert_get_ne _ _ _ _ (by decide)]
  have hnone : ((applyDefaults u m cfg).get "apiKey").bind Json.asStr = none := by
    rw [hget]
    cases cfg with
    | none => rfl
    | some j => simpa using hk
  have hres : openai_api_key (some (applyDefaults u m cfg)) none = none := by
    show (((applyDefaults u m cfg).get "apiKey").bind Json.asStr).orElse
      (fun _ => (none : Option String)) = none
    rw [hnone]
    rfl
  unfold openai_translate
  rw [hres]

/-- C4 (amended): a missing (or empty) `apiKey` short-circuits with exactly
the error string "No API key configured" and no network call for OpenAI,
Claude and Zhipu in aggregate mode, and for all five chat-style providers
(OpenAI, Zhipu, Groq, Gemini, Claude) in streaming mode.  In aggregate
mode, however, Groq and Gemini perform no such check: the OpenAI adapter
falls back to the `OPENAI_API_KEY` environment — when that fallback is
also absent the task fails, without a network call, with the adapter's
own error string "API key not found in config or environment".
-/
theorem c4_amended_credential_short_circuit (cfg : Option Json) (env : AdapterEnv)
    (rid : String) (h : check_api_key cfg = false) :
    translate_task "OpenAI" cfg env =
      (make_error_result "OpenAI" "No API key configured", false) ∧
    translate_task "Claude" cfg env =
      (make_error_result "Claude" "No API key configured", false) ∧
    translate_task "Zhipu" cfg env =
      (make_error_result "Zhipu" "No API key configured", false) ∧
    stream_task rid "OpenAI" cfg env = [errorEvent rid "OpenAI" "No API key configured"] ∧
    stream_task rid "Claude" cfg env = [errorEvent rid "Claude" "No API key configured"] ∧
    stream_task rid "Zhipu" cfg env = [errorEvent rid "Zhipu" "No API key configured"] ∧
    stream_task rid "Groq" cfg env = [errorEvent rid "Groq" "No API key configured"] ∧
    stream_task rid "Gemini" cfg env = [errorEvent rid "Gemini" "No API key configured"] ∧
    ((cfg.bind (·.get "apiKey")).bind Json.asStr = none → env.envKey = none →
      translate_task "Groq" cfg env =
        (make_error_result "Groq" "API key not found in config or environment", false) ∧
      translate_task "Gemini" cfg env =
        (make_error_result "Gemini" "API key not found in config or environment", false)) := by
  refine ⟨?_, ?_, ?_, ?_, ?_, ?_, ?_, ?_, ?_⟩
  · rw [translate_task_openai_eq, h]; rfl
  · rw [translate_task_claude_eq, h]; rfl
  · rw [translate_task_zhipu_eq, h]; rfl
  · rw [stream_task_openai_eq, h]; rfl
  · rw [stream_task_claude_eq, h]; rfl
  · rw [stream_task_zhipu_eq, h]; rfl
  · rw [stream_task_groq_eq, h]; rfl
  · rw [stream_task_gemini_eq, h]; rfl
  · intro hk henv
    constructor
    · rw [translate_task_groq_eq, henv, openai_translate_no_key _ _ _ _ hk]
    · rw [translate_task_gemini_eq, henv, openai_translate_no_key _ _ _ _ hk]

/-- C4 witness: empty configuration and empty environment.
-/
theorem c4_amended_credential_short_circuit_witness :
    check_api_key none = false ∧
    translate_task "OpenAI" none probeEnv =
      (make_error_result "OpenAI" "No API key configured", false) ∧
    translate_task "Gemini" none probeEnv =
      (make_error_result "Gemini" "API key not found in config or environment", false) := by
  have h := c4_amended_credential_short_circuit none probeEnv "r" rfl
  exact ⟨rfl, h.1, (h.2.2.2.2.2.2.2.2 rfl rfl).2⟩

/-- C4 counterexample: in aggregate mode, a Groq request whose configuration
lacks `apiKey` does not produce the error "No API key configured" — it
produces the OpenAI adapter's "API key not found in config or
environment"; and when the `OPENAI_API_KEY` environment fallback is set,
a network call is made even though the caller supplied no key at all.
-/
theorem c4_counterexample_groq_aggregate :
    translate_task "Groq" none probeEnv =
      (make_error_result "Groq" "API key not found in config or environment", false) ∧
    "API key not found in config or environment" ≠ "No API key configured" ∧
    (translate_task "Groq" none { probeEnv with envKey := some "k" }).2 = true :=
  ⟨rfl, by decide, rfl⟩

/-- C9 (amended): within every aggregate result and every stream event, a set
`error` excludes any text or delta payload: an error-carrying result has
empty `text`, and an error-carrying event has no `delta` and no `text`
(and a delta-carrying event has no `error` and no `text`).  The converse
direction of the original claim does not hold: `error = none` does not
imply a non-empty successful translation.
-/
theorem c9_amended_error_excludes_payload (service : String) (cfg : Option Json)
    (env : AdapterEnv) (rid : String) :
    ((translate_task service cfg env).1.error ≠ none →
      (translate_task service cfg env).1.text = "") ∧
    (∀ e ∈ stream_task rid service cfg env, e.error ≠ none →
      e.delta = none ∧ e.text = none) ∧
    (∀ e ∈ stream_task rid service cfg env, e.delta ≠ none →
      e.error = none ∧ e.text = none) := by
  refine ⟨?_, ?_, ?_⟩
  · unfold translate_task
    dsimp only
    split <;> (try split) <;> (try split) <;>
      first
        | (intro h9; rfl)
        | (intro h9; exact absurd rfl h9)
  · intro e he hne
    rcases stream_task_event_shape rid service cfg env e he with
      ⟨s, d, rfl⟩ | ⟨s, t, rfl⟩ | ⟨s, er, rfl⟩
    · exact absurd rfl hne
    · exact absurd rfl hne
    · exact ⟨rfl, rfl⟩
  · intro e he hne
    rcases stream_task_event_shape rid service cfg env e he with
      ⟨s, d, rfl⟩ | ⟨s, t, rfl⟩ | ⟨s, er, rfl⟩
    · exact ⟨rfl, rfl⟩
    · exact absurd rfl hne
    · exact absurd rfl hne

/-- C9 witness: an unsupported provider's error result has empty text.
-/
theorem c9_amended_error_excludes_payload_witness :
    (translate_task "BadX" none probeEnv).1.error ≠ none ∧
    (translate_task "BadX" none probeEnv).1.text = "" := by
  have h := c9_amended_error_excludes_payload "BadX" none probeEnv "r"
  exact ⟨by decide, h.1 (by decide)⟩

/-- C9 counterexample: a 2xx OpenAI response whose `content` field is the
empty string yields a result with `error = none` and empty `text` — the
entry carries no successful non-empty translation, yet `error` is not
set, refuting the "if and only if" direction of the claim.
-/
theorem c9_counterexample_ok_empty_text :
    (translate_task "OpenAI" (some keyCfg)
        { probeEnv with openaiHttp := .respOk emptyContentBody }).1 =
      ⟨"OpenAI", "", none⟩ ∧
    (⟨"OpenAI", "", none⟩ : TranslationResult).error = none ∧
    (⟨"OpenAI", "", none⟩ : TranslationResult).text = "" :=
  ⟨rfl, rfl, rfl⟩

/-- C10: whenever an adapter's `translate` call returns `Ok`, the dispatcher
overwrites the returned result's `error` field to `None` before recording
it (aggregate) or emitting the terminal event (streaming, whose terminal
`text` event carries `error = none` by construction) — regardless of what
the adapter placed in the `error` field of its `Ok` value.  The
conjunction covers every arm of both dispatchers that can receive an `Ok`
adapter value: the DeepL, Google, Alibaba, GoogleFree, OpenAI, Claude,
Ernie, Zhipu, Groq and Gemini aggregate arms (the credential-guarded ones
under their guard) and the DeepL, Google, Alibaba and GoogleFree
non-streaming arms of the streaming dispatcher; the remaining streaming
arms emit their terminal events through `streamEvents`, whose success
event is `finalEvent` with `error = none` by construction.
-/
theorem c10_ok_error_overwritten (cfg : Option Json) (env : AdapterEnv) (rid : String)
    (r : TranslationResult) :
    (env.deeplRes = .ok r → (translate_task "DeepL" cfg env).1 = { r with error := none }) ∧
    (env.googleRes = .ok r → (translate_task "Google" cfg env).1 = { r with error := none }) ∧
    (env.alibabaRes = .ok r →
      (translate_task "Alibaba" cfg env).1 = { r with error := none }) ∧
    (env.googleFreeRes = .ok r →
      (translate_task "GoogleFree" cfg env).1 = { r with error := none }) ∧
    (∀ net r', openai_translate cfg env.envKey env.openaiHttp = (net, .ok r') →
      check_api_key cfg = true →
      (translate_task "OpenAI" cfg env).1 = { r' with error := none }) ∧
    (env.deeplRes = .ok r →
      stream_task rid "DeepL" cfg env = [finalEvent rid r.name r.text]) ∧
    (∀ net r', claude_translate cfg env.claudeHttp = (net, .ok r') →
      check_api_key cfg = true →
      (translate_task "Claude" cfg env).1 = { r' with error := none }) ∧
    (env.ernieRes = .ok r → key_nonempty cfg "apiKey" = true →
      key_nonempty cfg "secretKey" = true →
      (translate_task "Ernie" cfg env).1 = { r with error := none }) ∧
    (∀ net r', openai_translate (some (applyDefaults zhipuApiUrl zhipuModel cfg))
        env.envKey env.openaiHttp = (net, .ok r') →
      check_api_key cfg = true →
      (translate_task "Zhipu" cfg env).1 = { r' with name := "Zhipu", error := none }) ∧
    (∀ net r', openai_translate (some (applyDefaults groqApiUrl groqModel cfg))
        env.envKey env.openaiHttp = (net, .ok r') →
      (translate_task "Groq" cfg env).1 = { r' with name := "Groq", error := none }) ∧
    (∀ net r', openai_translate (some (applyDefaults geminiApiUrl geminiModel cfg))
        env.envKey env.openaiHttp = (net, .ok r') →
      (translate_task "Gemini" cfg env).1 = { r' with name := "Gemini", error := none }) ∧
    (env.googleRes = .ok r →
      stream_task rid "Google" cfg env = [finalEvent rid r.name r.text]) ∧
    (env.alibabaRes = .ok r →
      stream_task rid "Alibaba" cfg env = [finalEvent rid r.name r.text]) ∧
    (env.googleFreeRes = .ok r →
      stream_task rid "GoogleFree" cfg env = [finalEvent rid r.name r.text]) ∧
    (∀ s tr t, (streamEvents rid s tr (Except.ok t)).getLast? =
        some (finalEvent rid s t) ∧
      (finalEvent rid s t).error = none) := by
  refine ⟨?_, ?_, ?_, ?_, ?_, ?_, ?_, ?_, ?_, ?_, ?_, ?_, ?_, ?_, ?_⟩
  · intro hok; rw [translate_task_deepl_eq, hok]
  · intro hok; rw [translate_task_google_eq, hok]
  · intro hok; rw [translate_task_alibaba_eq, hok]
  · intro hok; rw [translate_task_googlefree_eq, hok]
  · intro net r' hok hch
    rw [translate_task_openai_eq, hch, hok]
    rfl
  · intro hok; rw [stream_task_deepl_eq, hok]
  · intro net r' hok hch
    rw [translate_task_claude_eq, hch, hok]
    rfl
  · intro hok h1 h2
    rw [translate_task_ernie_eq, h1, h2, hok]
    rfl
  · intro net r' hok hch
    rw [translate_task_zhipu_eq, hch, hok]
    rfl
  · intro net r' hok
    rw [translate_task_groq_eq, hok]
  · intro net r' hok
    rw [translate_task_gemini_eq, hok]
  · intro hok; rw [stream_task_google_eq, hok]
  · intro hok; rw [stream_task_alibaba_eq, hok]
  · intro hok; rw [stream_task_googlefree_eq, hok]
  · intro s tr t
    constructor
    · unfold streamEvents
      rw [List.getLast?_append]
      rfl
    · rfl

/-- C10 witness: a DeepL adapter result carrying a stale `error` value is
recorded with `error = none`.
-/
theorem c10_ok_error_overwritten_witness :
    (translate_task "DeepL" none
        { probeEnv with deeplRes := .ok ⟨"DeepL", "hallo", some "stale"⟩ }).1 =
      ⟨"DeepL", "hallo", none⟩ := by
  have h := c10_ok_error_overwritten none
    { probeEnv with deeplRes := .ok ⟨"DeepL", "hallo", some "stale"⟩ } "r"
    ⟨"DeepL", "hallo", some "stale"⟩
  exact h.1 rfl

theorem openai_consume_spec (J : String → Except String Json) (tailErr : Option String)
    (lines : List String) :
    ∀ (full : String) (tr : List String),
      ∃ new : List String,
        (openai_consume J tailErr lines full tr).1 = tr ++ new ∧
        (∀ d ∈ new, d.isEmpty = false) ∧
        (∀ t, (openai_consume J tailErr lines full tr).2 = .ok t →
          t = full ++ concatAll new) := by
  induction lines with
  | nil =>
      intro full tr
      refine ⟨[], by simp [openai_consume], by simp, ?_⟩
      intro t ht
      cases htail : tailErr with
      | some e => rw [htail] at ht; simp [openai_consume] at ht
      | none =>
          rw [htail] at ht
          simp only [openai_consume, Except.ok.injEq] at ht
          subst ht
          simp [concatAll]
  | cons line rest ih =>
      intro full tr
      cases h1 : (trimStr line).isEmpty || !(startsWithData (trimStr line)) with
      | true =>
          have he : openai_consume J tailErr (line :: rest) full tr =
              openai_consume J tailErr rest full tr := by
            simp [openai_consume, h1]
          rw [he]
          exact ih full tr
      | false =>
          cases h2 : trimStr (trimStartMatchesData (trimStr line)) == "[DONE]" with
          | true =>
              have he : openai_consume J tailErr (line :: rest) full tr = (tr, .ok full) := by
                simp [openai_consume, h1, h2]
              rw [he]
              refine ⟨[], by simp, by simp, ?_⟩
              intro t ht
              simp only [Except.ok.injEq] at ht
              subst ht
              simp [concatAll]
          | false =>
              cases h3 : J (trimStr (trimStartMatchesData (trimStr line))) with
              | error e =>
                  have he : openai_consume J tailErr (line :: rest) full tr =
                      (tr, .error ("Failed to parse stream JSON: " ++ e)) := by
                    simp [openai_consume, h1, h2, h3]
                  rw [he]
                  exact ⟨[], by simp, by simp, fun t ht => by simp at ht⟩
              | ok json =>
                  cases h4 : (openai_delta json).isEmpty with
                  | true =>
                      have he : openai_consume J tailErr (line :: rest) full tr =
                          openai_consume J tailErr rest full tr := by
                        simp [openai_consume, h1, h2, h3, h4]
                      rw [he]
                      exact ih full tr
                  | false =>
                      have he : openai_consume J tailErr (line :: rest) full tr =
                          openai_consume J tailErr rest (full ++ openai_delta json)
                            (tr ++ [openai_delta json]) := by
                        simp [openai_consume, h1, h2, h3, h4]
                      obtain ⟨new, hn1, hn2, hn3⟩ :=
                        ih (full ++ openai_delta json) (tr ++ [openai_delta json])
                      refine ⟨openai_delta json :: new, ?_, ?_, ?_⟩
                      · rw [he, hn1, List.append_assoc]
                        rfl
                      · intro d hd
                        rcases List.mem_cons.mp hd with rfl | hd'
                        · exact h4
                        · exact hn2 d hd'
                      · intro t ht
                        rw [he] at ht
                        rw [hn3 t ht, String.append_assoc]
                        rfl

theorem claude_consume_spec (J : String → Except String Json) (tailErr : Option String)
    (lines : List String) :
    ∀ (full : String) (tr : List String),
      ∃ new : List String,
        (claude_consume J tailErr lines full tr).1 = tr ++ new ∧
        (∀ t, (claude_consume J tailErr lines full tr).2 = .ok t →
          t = full ++ concatAll new) := by
  induction lines with
  | nil =>
      intro full tr
      refine ⟨[], by simp [claude_consume], ?_⟩
      intro t ht
      cases htail : tailErr with
      | some e => rw [htail] at ht; simp [claude_consume] at ht
      | none =>
          rw [htail] at ht
          simp only [claude_consume, Except.ok.injEq] at ht
          subst ht
          simp [concatAll]
  | cons line rest ih =>
      intro full tr
      cases h1 : (trimStr line).isEmpty || !(startsWithData (trimStr line)) with
      | true =>
          have he : claude_consume J tailErr (line :: rest) full tr =
              claude_consume J tailErr rest full tr := by
            simp [claude_consume, h1]
          rw [he]
          exact ih full tr
      | false =>
          cases h2 : trimStr (trimStartMatchesData (trimStr line)) == "[DONE]" with
          | true =>
              have he : claude_consume J tailErr (line :: rest) full tr = (tr, .ok full) := by
                simp [claude_consume, h1, h2]
              rw [he]
              refine ⟨[], by simp, ?_⟩
              intro t ht
              simp only [Except.ok.injEq] at ht
              subst ht
              simp [concatAll]
          | false =>
              cases h3 : J (trimStr (trimStartMatchesData (trimStr line))) with
              | error e =>
                  have he : claude_consume J tailErr (line :: rest) full tr =
                      claude_consume J tailErr rest full tr := by
                    simp [claude_consume, h1, h2, h3]
                  rw [he]
                  exact ih full tr
              | ok json =>
                  cases h4 : ((json.get "delta").bind (·.get "text")).bind Json.asStr with
                  | none =>
                      have he : claude_consume J tailErr (line :: rest) full tr =
                          claude_consume J tailErr rest full tr := by
                        simp [claude_consume, h1, h2, h3, h4]
                      rw [he]
                      exact ih full tr
                  | some delta =>
                      have he : claude_consume J tailErr (line :: rest) full tr =
                          claude_consume J tailErr rest (full ++ delta) (tr ++ [delta]) := by
                        simp [claude_consume, h1, h2, h3, h4]
                      obtain ⟨new, hn1, hn3⟩ := ih (full ++ delta) (tr ++ [delta])
                      refine ⟨delta :: new, ?_, ?_⟩
                      · rw [he, hn1, List.append_assoc]
                        rfl
                      · intro t ht
                        rw [he] at ht
                        rw [hn3 t ht, String.append_assoc]
                        rfl

/-- C5 (amended): in the OpenAI-style streaming adapter, `on_delta` receives
only non-empty fragments and — whenever the call returns `Ok` — the final
text equals the concatenation, in delivery order, of exactly the
fragments delivered.  The Claude streaming adapter satisfies the same
concatenation law, but forwards `delta.text` without an emptiness check,
so its fragments are not guaranteed non-empty.
-/
theorem c5_amended_stream_concat (cfg cfg' : Option Json) (envKey : Option String)
    (J J' : String → Except String Json) (http http' : StreamHttp) :
    (∀ d ∈ (openai_translate_stream cfg envKey J http).2.1, d.isEmpty = false) ∧
    (∀ t, (openai_translate_stream cfg envKey J http).2.2 = .ok t →
      t = concatAll (openai_translate_stream cfg envKey J http).2.1) ∧
    (∀ t, (claude_translate_stream cfg' J' http').2.2 = .ok t →
      t = concatAll (claude_translate_stream cfg' J' http').2.1) := by
  refine ⟨?_, ?_, ?_⟩
  · intro d hd
    unfold openai_translate_stream at hd
    split at hd
    · simp at hd
    · split at hd
      · simp at hd
      · simp at hd
      · rename_i lines tailErr
        obtain ⟨new, hn1, hn2, _⟩ := openai_consume_spec J tailErr lines "" []
        simp only [hn1, List.nil_append] at hd
        exact hn2 d hd
  · intro t ht
    unfold openai_translate_stream at ht ⊢
    split at ht
    · simp at ht
    · split at ht
      · simp at ht
      · simp at ht
      · rename_i lines tailErr
        obtain ⟨new, hn1, _, hn3⟩ := openai_consume_spec J tailErr lines "" []
        have := hn3 t ht
        simp only [hn1, List.nil_append]
        rw [this]
        simp
  · intro t ht
    unfold claude_translate_stream at ht ⊢
    split at ht
    · simp at ht
    · split at ht
      · simp at ht
      · simp at ht
      · rename_i lines tailErr
        obtain ⟨new, hn1, hn3⟩ := claude_consume_spec J' tailErr lines "" []
        have := hn3 t ht
        simp only [hn1, List.nil_append]
        rw [this]
        simp

/-- C5 witness: a stream delivering `Bon` then `jour` then `[DONE]`.
-/
theorem c5_amended_stream_concat_witness :
    (openai_translate_stream (some keyCfg) none bonjourParse
        (.respOk ["data: b", "data: j", "data: [DONE]"] none)).2.2 = .ok "Bonjour" ∧
    "Bonjour" = concatAll (openai_translate_stream (some keyCfg) none bonjourParse
        (.respOk ["data: b", "data: j", "data: [DONE]"] none)).2.1 := by
  have h := c5_amended_stream_concat (some keyCfg) (some keyCfg) none
    bonjourParse bonjourParse (.respOk ["data: b", "data: j", "data: [DONE]"] none)
    (.sendErr "x")
  exact ⟨rfl, h.2.1 "Bonjour" rfl⟩

/-- C5 counterexample: a Claude stream event whose `delta.text` is the empty
string is forwarded to `on_delta` as an empty fragment, refuting the
claim that every delivered fragment is non-empty.
-/
theorem c5_counterexample_claude_empty_fragment :
    claude_translate_stream (some keyCfg) emptyDeltaParse (.respOk ["data: ed"] none) =
      (true, [""], .ok "") ∧
    ∃ d ∈ (claude_translate_stream (some keyCfg) emptyDeltaParse
      (.respOk ["data: ed"] none)).2.1, d.isEmpty = true :=
  ⟨rfl, ⟨"", by decide⟩⟩

/-- C6 (amended): while consuming a chat-completion (OpenAI-format) stream, a
line whose data payload is malformed JSON aborts the whole call with a
"Failed to parse stream JSON" error; only the Claude-format loop ignores
such a line and continues.
-/
theorem c6_amended_malformed_line_fatal (J : String → Except String Json)
    (tailErr : Option String) (line : String) (rest : List String) (full : String)
    (tr : List String) (e : String)
    (h1 : ((trimStr line).isEmpty || !(startsWithData (trimStr line))) = false)
    (h2 : (trimStr (trimStartMatchesData (trimStr line)) == "[DONE]") = false)
    (h3 : J (trimStr (trimStartMatchesData (trimStr line))) = .error e) :
    openai_consume J tailErr (line :: rest) full tr =
      (tr, .error ("Failed to parse stream JSON: " ++ e)) ∧
    claude_consume J tailErr (line :: rest) full tr =
      claude_consume J tailErr rest full tr := by
  constructor
  · simp [openai_consume, h1, h2, h3]
  · simp [claude_consume, h1, h2, h3]

/-- C6 witness: the concrete malformed line `data: bad`.
-/
theorem c6_amended_malformed_line_fatal_witness :
    ((trimStr "data: bad").isEmpty || !(startsWithData (trimStr "data: bad"))) = false ∧
    openai_consume badLineParse none ["data: bad", "data: [DONE]"] "" [] =
      ([], .error "Failed to parse stream JSON: expected value") := by
  have h := c6_amended_malformed_line_fatal badLineParse none "data: bad"
    ["data: [DONE]"] "" [] "expected value" (by decide) (by decide) rfl
  exact ⟨by decide, h.1⟩

/-- C6 counterexample: on the stream `data: bad`, `data: [DONE]`, the
OpenAI-format adapter fails the whole call with a parse error — the
malformed line is not "ignored for that line only"; the Claude-format
adapter on the same stream skips the line and completes.
-/
theorem c6_counterexample_openai_parse_fatal :
    openai_translate_stream (some keyCfg) none badLineParse
        (.respOk ["data: bad", "data: [DONE]"] none) =
      (true, [], .error "Failed to parse stream JSON: expected value") ∧
    claude_translate_stream (some keyCfg) badLineParse
        (.respOk ["data: bad", "data: [DONE]"] none) =
      (true, [], .ok "") :=
  ⟨rfl, rfl⟩

end Dict
